import Mathlib

/-!
Shallow embedding of the testgrid configuration generator
(`tools/config-generator/testgrid_config.go`) and of the GKE cluster-request
builder (`pkg/gke/request.go`), with theorems settling the frozen claims.

Go `map[string]T` values are embedded as association lists read and written
only through `lookupKV`/`setKV`; Go slices are Lean lists; Go `int64` is `Int`;
functions that can `panic` return `Option`; the append-only output sink is an
explicit list of emitted records.
-/

set_option maxHeartbeats 1000000

/-- Association-list lookup, embedding a Go map read `m[k]`. -/
def lookupKV {α : Type} (m : List (String × α)) (k : String) : Option α :=
  (m.find? (fun p => p.1 == k)).map (fun p => p.2)

/-- Association-list update, embedding a Go map write `m[k] = v`. -/
def setKV {α : Type} (m : List (String × α)) (k : String) (v : α) :
    List (String × α) :=
  match m with
  | [] => [(k, v)]
  | (k', v') :: rest => if k' == k then (k, v) :: rest else (k', v') :: setKV rest k v

/-- The keys of an embedded Go map. -/
def keysKV {α : Type} (m : List (String × α)) : List String :=
  m.map (fun p => p.1)

/-- Extras mapping (Go `map[string]string`): alert/display policy options. -/
def Extras := List (String × String)

instance : DecidableEq Extras := by
  unfold Extras
  infer_instance

/-- Go-map equality of two extras mappings: they agree on every key that
occurs in either (hence, on all keys). -/
def extrasEq (e1 e2 : Extras) : Bool :=
  (keysKV e1 ++ keysKV e2).all (fun k => lookupKV e1 k == lookupKV e2 k)

/-- Modelled from the spec: `strExists` (defined outside the given sources)
reports whether a string is already present in a slice; the spec's
deduplication rule is that "a name already present is never appended twice". -/
def strExists (arr : List String) (s : String) : Bool :=
  arr.contains s

/-- Embedding of Go `strings.ToLower` (ASCII case mapping suffices for the
names this program handles), character by character. -/
def stringsToLower (s : String) : String :=
  String.mk (s.data.map Char.toLower)

/-- Embeds `getTestGroupName` from testgrid_config.go: the `nightly` job kind
gets a `-release` suffix, and the result is lowercased. -/
def getTestGroupName (repoName jobName : String) : String :=
  if jobName = "nightly" then
    stringsToLower ("ci-" ++ repoName ++ "-" ++ jobName ++ "-release")
  else
    stringsToLower ("ci-" ++ repoName ++ "-" ++ jobName)

theorem string_append_assoc (a b c : String) : a ++ b ++ c = a ++ (b ++ c) := by
  apply String.ext
  simp [String.data_append]

/-- C2 counterexample: the group-name builder prefixes `ci-`, so
`getTestGroupName "Serving" "nightly"` is `"ci-serving-nightly-release"`,
not the claimed `"serving-nightly-release"`. -/
theorem getTestGroupName_serving_nightly_cex :
    getTestGroupName "Serving" "nightly" = "ci-serving-nightly-release" ∧
      "ci-serving-nightly-release" ≠ "serving-nightly-release" := by
  constructor
  · decide
  · decide

/-- C2 (amended): for every repo and jobKind the builder returns the
lowercased `"ci-{repo}-{jobKind}"`, except that jobKind `"nightly"` yields
the lowercased `"ci-{repo}-nightly-release"`; in particular
`getTestGroupName "Serving" "nightly" = "ci-serving-nightly-release"` and
`getTestGroupName "Eventing" "continuous" = "ci-eventing-continuous"`. -/
theorem getTestGroupName_spec (repo jobKind : String) :
    getTestGroupName repo jobKind =
      stringsToLower
        ("ci-" ++ repo ++ "-" ++
          (if jobKind = "nightly" then "nightly-release" else jobKind)) ∧
    getTestGroupName "Serving" "nightly" = "ci-serving-nightly-release" ∧
    getTestGroupName "Eventing" "continuous" = "ci-eventing-continuous" := by
  refine ⟨?_, by decide, by decide⟩
  unfold getTestGroupName
  by_cases h : jobKind = "nightly"
  · subst h
    rw [if_pos rfl, if_pos rfl, string_append_assoc]
    rfl
  · rw [if_neg h, if_neg h]

/-!
Embedding of `pkg/gke/request.go`. The external SDK record types
(`container.*` from `google.golang.org/api/container/v1beta1`) are embedded
with only the fields this program sets, prefixed `Container`.
-/

/-- Cluster-creation settings (`Request` in pkg/gke/request.go). -/
structure Request where
  GCPCredentialFile : String
  Project : String
  GKEVersion : String
  ReleaseChannel : String
  ClusterName : String
  MinNodes : Int
  MaxNodes : Int
  NodeType : String
  Region : String
  Zone : String
  Addons : List String
  EnableWorkloadIdentity : Bool
  ServiceAccount : String
deriving DecidableEq

/-- The `defaultGKEVersion` constant of pkg/gke/request.go. -/
def defaultGKEVersion : String := "latest"

/-- Embeds `Request.DeepCopy`: a copy built by a struct literal that lists
every field except `GCPCredentialFile`, which therefore receives the Go zero
value `""`. -/
def Request.DeepCopy (r : Request) : Request :=
  { GCPCredentialFile := ""
    Project := r.Project
    GKEVersion := r.GKEVersion
    ReleaseChannel := r.ReleaseChannel
    ClusterName := r.ClusterName
    MinNodes := r.MinNodes
    MaxNodes := r.MaxNodes
    NodeType := r.NodeType
    Region := r.Region
    Zone := r.Zone
    Addons := r.Addons
    EnableWorkloadIdentity := r.EnableWorkloadIdentity
    ServiceAccount := r.ServiceAccount }

/-- `container.NodePoolAutoscaling`, fields used by this program. -/
structure ContainerNodePoolAutoscaling where
  Enabled : Bool
  MinNodeCount : Int
  MaxNodeCount : Int
deriving DecidableEq

/-- `container.NodeConfig`, fields used by this program. -/
structure ContainerNodeConfig where
  MachineType : String
  OauthScopes : List String
  ServiceAccount : String
deriving DecidableEq

/-- `container.NodePool`, fields used by this program. -/
structure ContainerNodePool where
  Name : String
  InitialNodeCount : Int
  Autoscaling : ContainerNodePoolAutoscaling
  Config : ContainerNodeConfig
deriving DecidableEq

/-- Modelled from the spec: `GetAddonsConfig` (defined outside the given
sources) "configures addons from the given list"; the configuration is
embedded as the list it was built from. -/
structure ContainerAddonsConfig where
  Addons : List String
deriving DecidableEq

/-- `container.MasterAuth`, fields used by this program. -/
structure ContainerMasterAuth where
  Username : String
deriving DecidableEq

/-- `container.WorkloadIdentityConfig`, fields used by this program. -/
structure ContainerWorkloadIdentityConfig where
  WorkloadPool : String
deriving DecidableEq

/-- `container.ReleaseChannel`, fields used by this program. -/
structure ContainerReleaseChannel where
  Channel : String
deriving DecidableEq

/-- `container.Cluster`, fields used by this program (pointer-valued fields
that may stay nil are embedded as `Option`). -/
structure ContainerCluster where
  NodePools : List ContainerNodePool
  Name : String
  AddonsConfig : ContainerAddonsConfig
  MasterAuth : ContainerMasterAuth
  WorkloadIdentityConfig : Option ContainerWorkloadIdentityConfig
  ReleaseChannel : Option ContainerReleaseChannel
  InitialClusterVersion : String
deriving DecidableEq

/-- `container.CreateClusterRequest`, fields used by this program. -/
structure ContainerCreateClusterRequest where
  Cluster : ContainerCluster
deriving DecidableEq

/-- The `container.CloudPlatformScope` constant of the SDK. -/
def CloudPlatformScope : String := "https://www.googleapis.com/auth/cloud-platform"

/-- Modelled from the spec: `GetAddonsConfig` "configures addons from the
given list". -/
def GetAddonsConfig (addons : List String) : ContainerAddonsConfig :=
  { Addons := addons }

/-- Whether an `Except` value is a success (Go: `err == nil`). -/
def exceptIsOk {ε α : Type} : Except ε α → Bool
  | .ok _ => true
  | .error _ => false

/-- The `ccr` struct literal built by `NewCreateClusterRequest` before its
three conditional updates. -/
def baseCreateClusterRequest (request : Request) : ContainerCreateClusterRequest :=
  { Cluster :=
      { NodePools :=
          [{ Name := "default-pool"
             InitialNodeCount := request.MinNodes
             Autoscaling :=
               { Enabled := true
                 MinNodeCount := request.MinNodes
                 MaxNodeCount := request.MaxNodes }
             Config :=
               { MachineType := request.NodeType
                 OauthScopes := [CloudPlatformScope]
                 ServiceAccount := "" } }]
        Name := request.ClusterName
        AddonsConfig := GetAddonsConfig request.Addons
        MasterAuth := { Username := "admin" }
        WorkloadIdentityConfig := none
        ReleaseChannel := none
        InitialClusterVersion := "" } }

/-- The `if request.EnableWorkloadIdentity` update statement of
`NewCreateClusterRequest`. -/
def applyWorkloadIdentity (request : Request) (ccr : ContainerCreateClusterRequest) :
    ContainerCreateClusterRequest :=
  if request.EnableWorkloadIdentity then
    { ccr with
      Cluster :=
        { ccr.Cluster with
          WorkloadIdentityConfig := some { WorkloadPool := request.Project ++ ".svc.id.goog" } } }
  else ccr

/-- The `if request.ServiceAccount != ""` update statement of
`NewCreateClusterRequest` (assignment to `ccr.Cluster.NodePools[0]`). -/
def applyServiceAccount (request : Request) (ccr : ContainerCreateClusterRequest) :
    ContainerCreateClusterRequest :=
  if request.ServiceAccount ≠ "" then
    { ccr with
      Cluster :=
        { ccr.Cluster with
          NodePools := ccr.Cluster.NodePools.modifyHead fun p =>
            { p with
              Config := { p.Config with ServiceAccount := request.ServiceAccount } } } }
  else ccr

/-- The version/release-channel update statement of
`NewCreateClusterRequest`: only one of the initial cluster version or the
release channel is set, defaulting to `defaultGKEVersion`. -/
def applyVersion (request : Request) (ccr : ContainerCreateClusterRequest) :
    ContainerCreateClusterRequest :=
  if request.ReleaseChannel ≠ "" then
    { ccr with
      Cluster :=
        { ccr.Cluster with ReleaseChannel := some { Channel := request.ReleaseChannel } } }
  else if request.GKEVersion ≠ "" then
    { ccr with
      Cluster := { ccr.Cluster with InitialClusterVersion := request.GKEVersion } }
  else
    { ccr with
      Cluster := { ccr.Cluster with InitialClusterVersion := defaultGKEVersion } }

/-- Embeds `NewCreateClusterRequest` from pkg/gke/request.go: six validation
checks in source order, then the request construction
(`baseCreateClusterRequest`) followed by its three conditional update
statements in source order. -/
def NewCreateClusterRequest (request : Request) :
    Except String ContainerCreateClusterRequest :=
  if request.ClusterName = "" then .error "cluster name cannot be empty"
  else if request.MinNodes ≤ 0 then .error "min nodes must be larger than 1"
  else if request.MinNodes > request.MaxNodes then
    .error "min nodes cannot be larger than max nodes"
  else if request.NodeType = "" then .error "node type cannot be empty"
  else if request.EnableWorkloadIdentity ∧ request.Project = "" then
    .error "project cannot be empty if you want Workload Identity"
  else if request.GKEVersion ≠ "" ∧ request.ReleaseChannel ≠ "" then
    .error "can only specify one of GKE version or release channel (not both)"
  else
    .ok (applyVersion request
          (applyServiceAccount request
            (applyWorkloadIdentity request (baseCreateClusterRequest request))))

/-- `applyWorkloadIdentity` does not touch the node pools. -/
theorem applyWorkloadIdentity_nodePools (q : Request) (c : ContainerCreateClusterRequest) :
    (applyWorkloadIdentity q c).Cluster.NodePools = c.Cluster.NodePools := by
  unfold applyWorkloadIdentity
  split <;> rfl

/-- `applyVersion` does not touch the node pools. -/
theorem applyVersion_nodePools (q : Request) (c : ContainerCreateClusterRequest) :
    (applyVersion q c).Cluster.NodePools = c.Cluster.NodePools := by
  unfold applyVersion
  split <;> first | rfl | (split <;> rfl)

/-- `applyServiceAccount` keeps a singleton node-pool list a singleton and
only rewrites the pool's `Config.ServiceAccount`. -/
theorem applyServiceAccount_nodePools (q : Request) (c : ContainerCreateClusterRequest)
    (p : ContainerNodePool) (hp : c.Cluster.NodePools = [p]) :
    ∃ p', (applyServiceAccount q c).Cluster.NodePools = [p'] ∧
      p'.Name = p.Name ∧ p'.Autoscaling = p.Autoscaling := by
  unfold applyServiceAccount
  split
  · refine ⟨{ p with Config := { p.Config with ServiceAccount := q.ServiceAccount } },
      ?_, rfl, rfl⟩
    rw [hp]
    rfl
  · exact ⟨p, hp, rfl, rfl⟩

/-- C9: `DeepCopy` copies every field except `GCPCredentialFile`, which is
left empty regardless of the receiver's value. -/
theorem Request.DeepCopy_spec (r : Request) :
    r.DeepCopy.Project = r.Project ∧
    r.DeepCopy.GKEVersion = r.GKEVersion ∧
    r.DeepCopy.ReleaseChannel = r.ReleaseChannel ∧
    r.DeepCopy.ClusterName = r.ClusterName ∧
    r.DeepCopy.MinNodes = r.MinNodes ∧
    r.DeepCopy.MaxNodes = r.MaxNodes ∧
    r.DeepCopy.NodeType = r.NodeType ∧
    r.DeepCopy.Region = r.Region ∧
    r.DeepCopy.Zone = r.Zone ∧
    r.DeepCopy.Addons = r.Addons ∧
    r.DeepCopy.EnableWorkloadIdentity = r.EnableWorkloadIdentity ∧
    r.DeepCopy.ServiceAccount = r.ServiceAccount ∧
    r.DeepCopy.GCPCredentialFile = "" :=
  ⟨rfl, rfl, rfl, rfl, rfl, rfl, rfl, rfl, rfl, rfl, rfl, rfl, rfl⟩

/-- C4: `NewCreateClusterRequest` fails exactly on the six documented
conditions, and on success the request has exactly one node pool, named
`default-pool`, with autoscaling enabled between the given bounds. -/
theorem NewCreateClusterRequest_spec (r : Request) :
    (exceptIsOk (NewCreateClusterRequest r) = false ↔
      r.ClusterName = "" ∨ r.MinNodes ≤ 0 ∨ r.MinNodes > r.MaxNodes ∨
        r.NodeType = "" ∨ (r.EnableWorkloadIdentity = true ∧ r.Project = "") ∨
        (r.GKEVersion ≠ "" ∧ r.ReleaseChannel ≠ "")) ∧
    (∀ ccr, NewCreateClusterRequest r = .ok ccr →
      ∃ pool, ccr.Cluster.NodePools = [pool] ∧ pool.Name = "default-pool" ∧
        pool.Autoscaling.Enabled = true ∧
        pool.Autoscaling.MinNodeCount = r.MinNodes ∧
        pool.Autoscaling.MaxNodeCount = r.MaxNodes) := by
  constructor
  · unfold NewCreateClusterRequest
    by_cases h1 : r.ClusterName = ""
    · rw [if_pos h1]
      exact iff_of_true rfl (Or.inl h1)
    · rw [if_neg h1]
      by_cases h2 : r.MinNodes ≤ 0
      · rw [if_pos h2]
        exact iff_of_true rfl (Or.inr (Or.inl h2))
      · rw [if_neg h2]
        by_cases h3 : r.MinNodes > r.MaxNodes
        · rw [if_pos h3]
          exact iff_of_true rfl (Or.inr (Or.inr (Or.inl h3)))
        · rw [if_neg h3]
          by_cases h4 : r.NodeType = ""
          · rw [if_pos h4]
            exact iff_of_true rfl (Or.inr (Or.inr (Or.inr (Or.inl h4))))
          · rw [if_neg h4]
            by_cases h5 : r.EnableWorkloadIdentity = true ∧ r.Project = ""
            · rw [if_pos h5]
              exact iff_of_true rfl (Or.inr (Or.inr (Or.inr (Or.inr (Or.inl h5)))))
            · rw [if_neg h5]
              by_cases h6 : r.GKEVersion ≠ "" ∧ r.ReleaseChannel ≠ ""
              · rw [if_pos h6]
                exact iff_of_true rfl (Or.inr (Or.inr (Or.inr (Or.inr (Or.inr h6)))))
              · rw [if_neg h6]
                refine iff_of_false (by simp [exceptIsOk]) ?_
                rintro (hh | hh | hh | hh | hh | hh)
                exacts [h1 hh, h2 hh, h3 hh, h4 hh, h5 hh, h6 hh]
  · intro ccr h
    unfold NewCreateClusterRequest at h
    by_cases h1 : r.ClusterName = ""
    · rw [if_pos h1] at h
      exact Except.noConfusion h
    · rw [if_neg h1] at h
      by_cases h2 : r.MinNodes ≤ 0
      · rw [if_pos h2] at h
        exact Except.noConfusion h
      · rw [if_neg h2] at h
        by_cases h3 : r.MinNodes > r.MaxNodes
        · rw [if_pos h3] at h
          exact Except.noConfusion h
        · rw [if_neg h3] at h
          by_cases h4 : r.NodeType = ""
          · rw [if_pos h4] at h
            exact Except.noConfusion h
          · rw [if_neg h4] at h
            by_cases h5 : r.EnableWorkloadIdentity = true ∧ r.Project = ""
            · rw [if_pos h5] at h
              exact Except.noConfusion h
            · rw [if_neg h5] at h
              by_cases h6 : r.GKEVersion ≠ "" ∧ r.ReleaseChannel ≠ ""
              · rw [if_pos h6] at h
                exact Except.noConfusion h
              · rw [if_neg h6] at h
                injection h with h
                subst h
                have hbase :
                    (applyWorkloadIdentity r (baseCreateClusterRequest r)).Cluster.NodePools =
                      [{ Name := "default-pool"
                         InitialNodeCount := r.MinNodes
                         Autoscaling :=
                           { Enabled := true
                             MinNodeCount := r.MinNodes
                             MaxNodeCount := r.MaxNodes }
                         Config :=
                           { MachineType := r.NodeType
                             OauthScopes := [CloudPlatformScope]
                             ServiceAccount := "" } }] := by
                  rw [applyWorkloadIdentity_nodePools]
                  rfl
                obtain ⟨p', hp', hname, hauto⟩ :=
                  applyServiceAccount_nodePools r _ _ hbase
                refine ⟨p', ?_, hname, ?_, ?_, ?_⟩
                · rw [applyVersion_nodePools]
                  exact hp'
                · rw [hauto]
                · rw [hauto]
                · rw [hauto]

/-- A minimal valid request used to witness the success case of C4. -/
def validRequestEx : Request :=
  { GCPCredentialFile := ""
    Project := "proj"
    GKEVersion := ""
    ReleaseChannel := ""
    ClusterName := "cluster"
    MinNodes := 1
    MaxNodes := 3
    NodeType := "e2-standard-4"
    Region := ""
    Zone := ""
    Addons := []
    EnableWorkloadIdentity := false
    ServiceAccount := "" }

/-- The request produced for `validRequestEx`. -/
def validRequestResult : ContainerCreateClusterRequest :=
  { Cluster :=
      { NodePools :=
          [{ Name := "default-pool"
             InitialNodeCount := 1
             Autoscaling := { Enabled := true, MinNodeCount := 1, MaxNodeCount := 3 }
             Config :=
               { MachineType := "e2-standard-4"
                 OauthScopes := [CloudPlatformScope]
                 ServiceAccount := "" } }]
        Name := "cluster"
        AddonsConfig := { Addons := [] }
        MasterAuth := { Username := "admin" }
        WorkloadIdentityConfig := none
        ReleaseChannel := none
        InitialClusterVersion := "latest" } }

/-- C4 witness: the success case of `NewCreateClusterRequest_spec` applied at
a concrete minimal valid request. -/
theorem NewCreateClusterRequest_spec_witness :
    ∃ pool, validRequestResult.Cluster.NodePools = [pool] ∧
      pool.Name = "default-pool" ∧ pool.Autoscaling.Enabled = true ∧
      pool.Autoscaling.MinNodeCount = validRequestEx.MinNodes ∧
      pool.Autoscaling.MaxNodeCount = validRequestEx.MaxNodes :=
  (NewCreateClusterRequest_spec validRequestEx).2 validRequestResult (by rfl)

/-!
Embedding of `tools/config-generator/testgrid_config.go`. Collaborators the
spec rules out of scope (the regex utilities `isReleased`/`releaseRegex`, the
repo-name builder `buildProjRepoStr`, and the storage constants) are
parameters of the embedding, collected in `Env`; the template emission
boundary appends structured records to an append-only output buffer.
-/

/-- Modelled from the spec: the out-of-scope collaborators of the generator
("the regex-based project/version utilities (`isReleased`, `releaseRegex`)"
and the job/storage naming helpers defined outside the given sources),
embedded as opaque parameters. -/
structure Env where
  isReleased : String → Bool
  releaseMatches : String → Bool
  buildProjRepoStr : String → String → String
  GCSBucket : String
  LogsDir : String
  baseIndent : String

/-- `baseTestgridTemplateData` from testgrid_config.go. -/
structure baseTestgridTemplateData where
  ProwHost : String
  TestGridHost : String
  GubernatorHost : String
  TestGridGcsBucket : String
  TestGroupName : String
  Year : Int
deriving DecidableEq

/-- The Go zero value of `baseTestgridTemplateData` (`var data ...`). -/
def zeroBase : baseTestgridTemplateData :=
  { ProwHost := ""
    TestGridHost := ""
    GubernatorHost := ""
    TestGridGcsBucket := ""
    TestGroupName := ""
    Year := 0 }

/-- `testGroupTemplateData` from testgrid_config.go. -/
structure testGroupTemplateData where
  Base : baseTestgridTemplateData
  GcsLogDir : String
  Extras : Extras
deriving DecidableEq

/-- `dashboardTabTemplateData` from testgrid_config.go. -/
structure dashboardTabTemplateData where
  Base : baseTestgridTemplateData
  Name : String
  BaseOptions : String
  Extras : Extras
deriving DecidableEq

/-- `dashboardGroupTemplateData` from testgrid_config.go. -/
structure dashboardGroupTemplateData where
  Name : String
  RepoNames : List String
deriving DecidableEq

/-- One record appended to the output sink: either a raw config line
(`output.outputConfig`) or a rendered template with its data record
(`executeTemplate`, whose template text is fixed per call site). -/
inductive OutputItem where
  | line (s : String)
  | testGroup (d : testGroupTemplateData)
  | dashboardTab (d : dashboardTabTemplateData)
  | dashboardGroup (d : dashboardGroupTemplateData)
deriving DecidableEq

/-- The append-only output sink with its emission count. -/
structure Output where
  items : List OutputItem
  count : Nat
deriving DecidableEq

/-- Modelled from the spec: `output.outputConfig` (defined outside the given
sources) appends the given line to the append-only output buffer, and
`output.count` records the output length ("Record output length before
emission ... if nothing was emitted (output length unchanged)"). -/
def outputConfig (s : String) (o : Output) : Output :=
  { items := o.items ++ [.line s], count := o.count + 1 }

/-- Modelled from the spec: the Template Emission Boundary "renders a named
template with a data record and appends to an output buffer"; rendering is
embedded by appending the data record, which grows the output length. -/
def emitTemplate (item : OutputItem) (o : Output) : Output :=
  { items := o.items ++ [item], count := o.count + 1 }

/-- `executeTestGroupTemplate` from testgrid_config.go: zero-valued data
record with `Base.TestGroupName`, `GcsLogDir` and `Extras` filled in. -/
def executeTestGroupTemplate (testGroupName gcsLogDir : String) (extras : Extras)
    (o : Output) : Output :=
  emitTemplate
    (.testGroup
      { Base := { zeroBase with TestGroupName := testGroupName }
        GcsLogDir := gcsLogDir
        Extras := extras }) o

/-- `executeDashboardTabTemplate` from testgrid_config.go. -/
def executeDashboardTabTemplate (dashboardTabName testGroupName baseOptions : String)
    (extras : Extras) (o : Output) : Output :=
  emitTemplate
    (.dashboardTab
      { Base := { zeroBase with TestGroupName := testGroupName }
        Name := dashboardTabName
        BaseOptions := baseOptions
        Extras := extras }) o

/-- `executeDashboardGroupTemplate` from testgrid_config.go. -/
def executeDashboardGroupTemplate (dashboardGroupName : String)
    (dashboardRepoNames : List String) (o : Output) : Output :=
  emitTemplate
    (.dashboardGroup { Name := dashboardGroupName, RepoNames := dashboardRepoNames }) o

/-- `testgridTabGroupByDir` constant. -/
def testgridTabGroupByDir : String :=
  "exclude-filter-by-regex=Overall$&group-by-directory=&expand-groups=&sort-by-name="

/-- `testgridTabSortByName` constant. -/
def testgridTabSortByName : String := "sort-by-name="

/-- `getGcsLogDir` from testgrid_config.go: `GCSBucket/LogsDir/testGroupName`. -/
def getGcsLogDir (env : Env) (testGroupName : String) : String :=
  env.GCSBucket ++ "/" ++ env.LogsDir ++ "/" ++ testGroupName

/-- The fixed team alert email line inserted by `getTestgroupExtras`
(indented four spaces). -/
def testgroupAlertOptions : String :=
  "\n    alert_mail_to_addresses: \"serverless-engprod-sea@google.com\""

/-- The fixed team alert email line inserted by `generateDashboard` and
`generateDashboardsForReleases` (indented six spaces). -/
def dashboardAlertOptions : String :=
  "\n      alert_mail_to_addresses: \"serverless-engprod-sea@google.com\""

/-- Embeds `getTestgroupExtras` from testgrid_config.go: the per-(project,
job-kind) alerting/display policy table used for test-group annotation
extras (`releaseRegex.FindString(projName) != ""` is `env.releaseMatches`). -/
def getTestgroupExtras (env : Env) (projName jobName : String) : Extras :=
  if jobName = "continuous" then
    if env.releaseMatches projName then
      setKV (setKV [] "num_failures_to_alert" "3") "alert_options" testgroupAlertOptions
    else
      setKV [] "alert_stale_results_hours" "3"
  else if jobName = "dot-release" ∨ jobName = "auto-release" ∨ jobName = "nightly" then
    let extras := setKV (setKV [] "num_failures_to_alert" "1") "alert_options" testgroupAlertOptions
    if jobName = "dot-release" then setKV extras "alert_stale_results_hours" "170"
    else extras
  else if jobName = "webhook-apicoverage" then
    setKV [] "alert_stale_results_hours" "48"
  else if jobName = "test-coverage" then
    setKV [] "short_text_metric" "coverage"
  else
    setKV [] "alert_stale_results_hours" "3"

/-- The per-job body of `generateDashboard`'s loop (its `switch jobName`),
emitting the dashboard tab(s) for one job kind. -/
def generateDashboardTabsForJob (projRepoStr jobName : String) (o : Output) : Output :=
  let testGroupName := getTestGroupName projRepoStr jobName
  if jobName = "continuous" then
    let extras := setKV (setKV [] "num_failures_to_alert" "3") "alert_options" dashboardAlertOptions
    let o := executeDashboardTabTemplate "continuous" testGroupName testgridTabSortByName extras o
    if projRepoStr = "knative-serving" then
      executeDashboardTabTemplate "conformance" testGroupName
        "include-filter-by-regex=test/conformance/&sort-by-name=" extras o
    else o
  else if jobName = "dot-release" ∨ jobName = "auto-release" then
    let extras := setKV (setKV [] "num_failures_to_alert" "1") "alert_options" dashboardAlertOptions
    executeDashboardTabTemplate jobName testGroupName testgridTabSortByName extras o
  else if jobName = "webhook-apicoverage" then
    executeDashboardTabTemplate jobName testGroupName testgridTabSortByName [] o
  else if jobName = "nightly" then
    let extras := setKV (setKV [] "num_failures_to_alert" "1") "alert_options" dashboardAlertOptions
    executeDashboardTabTemplate "nightly" testGroupName testgridTabSortByName extras o
  else if jobName = "test-coverage" then
    executeDashboardTabTemplate "coverage" testGroupName testgridTabGroupByDir [] o
  else
    executeDashboardTabTemplate jobName testGroupName testgridTabSortByName [] o

/-- Embeds `generateDashboard` from testgrid_config.go: the dashboard header
line followed by the per-job tabs. -/
def generateDashboard (env : Env) (projName repoName : String) (jobNames : List String)
    (o : Output) : Output :=
  let projRepoStr := env.buildProjRepoStr projName repoName
  let o := outputConfig
    ("- name: " ++ stringsToLower repoName ++ "\n" ++ env.baseIndent ++ "dashboard_tab:") o
  jobNames.foldl (fun o jobName => generateDashboardTabsForJob projRepoStr jobName o) o

/-- The extras record of an emitted dashboard tab, if the item is one. -/
def tabExtrasOf : OutputItem → Option Extras
  | .dashboardTab d => some d.Extras
  | _ => none

/-- A concrete environment used for closed evaluations. -/
def envCex : Env :=
  { isReleased := fun _ => false
    releaseMatches := fun _ => false
    buildProjRepoStr := fun p r => p ++ "-" ++ r
    GCSBucket := "bucket"
    LogsDir := "logs"
    baseIndent := "  " }

/-- C1 counterexample: for project "foo" and job kind "test-coverage", the
aligned-dashboard pass emits a tab with no extras, while the policy resolver
`getTestgroupExtras` returns the `short_text_metric` extra — the dashboard
pass does not consult the resolver. -/
theorem dashboard_extras_cex :
    ((generateDashboardTabsForJob "foo-bar" "test-coverage"
        { items := [], count := 0 }).items.filterMap tabExtrasOf = [[]]) ∧
    getTestgroupExtras envCex "foo" "test-coverage" = [("short_text_metric", "coverage")] ∧
    extrasEq [] [("short_text_metric", "coverage")] = false := by
  refine ⟨by decide, by decide, by decide⟩

/-- C1 (amended): the aligned-dashboard pass does not use
`getTestgroupExtras` at all; `generateDashboard` carries its own hard-coded
per-job-kind extras (continuous: 3 failures plus email; dot-release,
auto-release, nightly: 1 failure plus email; every other kind: none), and
for every project and job kind the extras of every emitted dashboard tab
differ as a key-value map from the resolver's output (at minimum in the
`alert_options` indentation), so the two outputs are not driven by a single
policy table. -/
theorem dashboard_extras_differ (env : Env) (projRepoStr projName jobName : String) :
    ((generateDashboardTabsForJob projRepoStr jobName
        { items := [], count := 0 }).items.filterMap tabExtrasOf).all
      (fun e => !extrasEq e (getTestgroupExtras env projName jobName)) = true := by
  by_cases hc : jobName = "continuous"
  · subst hc
    by_cases hks : projRepoStr = "knative-serving" <;>
      cases hrm : env.releaseMatches projName <;>
        simp [generateDashboardTabsForJob, getTestgroupExtras,
          executeDashboardTabTemplate, emitTemplate, tabExtrasOf, extrasEq,
          keysKV, lookupKV, setKV, testgroupAlertOptions, dashboardAlertOptions,
          hks, hrm]
  · by_cases hd : jobName = "dot-release"
    · subst hd
      simp [generateDashboardTabsForJob, getTestgroupExtras,
        executeDashboardTabTemplate, emitTemplate, tabExtrasOf, extrasEq,
        keysKV, lookupKV, setKV, testgroupAlertOptions, dashboardAlertOptions]
    · by_cases ha : jobName = "auto-release"
      · subst ha
        simp [generateDashboardTabsForJob, getTestgroupExtras,
          executeDashboardTabTemplate, emitTemplate, tabExtrasOf, extrasEq,
          keysKV, lookupKV, setKV, testgroupAlertOptions, dashboardAlertOptions]
      · by_cases hw : jobName = "webhook-apicoverage"
        · subst hw
          simp [generateDashboardTabsForJob, getTestgroupExtras,
            executeDashboardTabTemplate, emitTemplate, tabExtrasOf, extrasEq,
            keysKV, lookupKV, setKV, testgroupAlertOptions, dashboardAlertOptions]
        · by_cases hn : jobName = "nightly"
          · subst hn
            simp [generateDashboardTabsForJob, getTestgroupExtras,
              executeDashboardTabTemplate, emitTemplate, tabExtrasOf, extrasEq,
              keysKV, lookupKV, setKV, testgroupAlertOptions, dashboardAlertOptions]
          · by_cases ht : jobName = "test-coverage"
            · subst ht
              simp [generateDashboardTabsForJob, getTestgroupExtras,
                executeDashboardTabTemplate, emitTemplate, tabExtrasOf, extrasEq,
                keysKV, lookupKV, setKV, testgroupAlertOptions, dashboardAlertOptions]
            · simp [generateDashboardTabsForJob, getTestgroupExtras,
                executeDashboardTabTemplate, emitTemplate, tabExtrasOf, extrasEq,
                keysKV, lookupKV, setKV, testgroupAlertOptions, dashboardAlertOptions,
                hc, hd, ha, hw, hn, ht]

/-- One element of the compiled pattern `"(.+@.+\..+)"` (the
`quotedEmailPattern` of testgrid_config.go): a literal character or the
greedy `.+` wildcard (one or more characters, newline excluded). -/
inductive RegexElem where
  | lit (c : Char)
  | plusDot
deriving DecidableEq

/-- The compiled `quotedEmailPattern` regular expression `"(.+@.+\..+)"`:
an opening quote, the capture group `.+@.+\..+`, and a closing quote. -/
def quotedEmailPattern : List RegexElem :=
  [.lit '"', .plusDot, .lit '@', .plusDot, .lit '.', .plusDot, .lit '"']

/-- Backtracking matcher for a pattern element list against a prefix of `s`,
returning the remainder after the matched prefix; `.+` is greedy, trying the
longest candidate first (Go regexp's preferred-first submatch semantics).
The fuel argument only bounds the recursion; every call consumes one pattern
element, so `pat.length + 1` fuel is always enough. -/
def matchSeqFuel : Nat → List RegexElem → List Char → Option (List Char)
  | 0, _, _ => none
  | Nat.succ fuel, pat, s =>
    match pat with
    | [] => some s
    | .lit c :: rest =>
      match s with
      | [] => none
      | x :: s2 => if x = c then matchSeqFuel fuel rest s2 else none
    | .plusDot :: rest =>
      let maxRun := (s.takeWhile (fun ch => ch ≠ '\n')).length
      (List.range maxRun).findSome? fun k => matchSeqFuel fuel rest (s.drop (maxRun - k))

/-- Matcher at the head of `s` with sufficient fuel. -/
def matchSeq (pat : List RegexElem) (s : List Char) : Option (List Char) :=
  matchSeqFuel (pat.length + 1) pat s

/-- `quotedEmailPattern.FindStringSubmatch`: scan the start positions left to
right (leftmost match wins) and return the first capture group — the
characters of the match strictly between its enclosing quotes. -/
def findQuotedSubmatch : List Char → Option (List Char)
  | [] => none
  | c :: s =>
    match matchSeq quotedEmailPattern (c :: s) with
    | some rem =>
      let consumed := (c :: s).take ((c :: s).length - rem.length)
      some (consumed.drop 1).dropLast
    | none => findQuotedSubmatch s

/-- The email captured by `quotedEmailPattern.FindStringSubmatch(v)[1]`,
or `none` when the pattern does not match (Go returns nil and `[1]` panics). -/
def findQuotedEmail (v : String) : Option String :=
  (findQuotedSubmatch v.data).map String.mk

/-- Embeds `generateProwJobAnnotations` from testgrid_config.go: the fixed
dashboards/tab-name lines, then the extras-driven lines checked in fixed key
order; `none` embeds the Go panic (index out of range on
`FindStringSubmatch(v)[1]`) when `alert_options` is present but the
quoted-email pattern has no match. -/
def generateProwJobAnnotations (repoName jobName : String) (tgExtras : Extras) :
    Option (List String) :=
  let anns := ["  testgrid-dashboards: " ++ repoName,
               "  testgrid-tab-name: " ++ jobName]
  let anns :=
    match lookupKV tgExtras "alert_stale_results_hours" with
    | some v => anns ++ ["  testgrid-alert-stale-results-hours: \"" ++ v ++ "\""]
    | none => anns
  let anns :=
    match lookupKV tgExtras "short_text_metric" with
    | some v => anns ++ ["  testgrid-in-cell-metric: " ++ v]
    | none => anns
  match lookupKV tgExtras "alert_options" with
  | some v =>
    match findQuotedEmail v with
    | some email =>
      let anns := anns ++ ["  testgrid-alert-email: \"" ++ email ++ "\""]
      some
        (match lookupKV tgExtras "num_failures_to_alert" with
         | some v2 => anns ++ ["  testgrid-num-failures-to-alert: \"" ++ v2 ++ "\""]
         | none => anns)
    | none => none
  | none =>
    some
      (match lookupKV tgExtras "num_failures_to_alert" with
       | some v2 => anns ++ ["  testgrid-num-failures-to-alert: \"" ++ v2 ++ "\""]
       | none => anns)

/-- Renders an optional extras value as zero or one annotation lines. -/
def optLine (o : Option String) (render : String → String) : List String :=
  match o with
  | some v => [render v]
  | none => []

/-- C6: the annotation renderer emits the fixed header lines and then the
`alert_stale_results_hours`, `short_text_metric`, `alert_options`-email and
`num_failures_to_alert` lines in that fixed order, omitting absent keys
(order depends only on lookups, never on map iteration order); and it fails
exactly when `alert_options` is present but the quoted-email pattern finds
no match in it. -/
theorem generateProwJobAnnotations_spec (repoName jobName : String) (tgExtras : Extras) :
    (generateProwJobAnnotations repoName jobName tgExtras = none ↔
      ∃ v, lookupKV tgExtras "alert_options" = some v ∧ findQuotedEmail v = none) ∧
    (∀ l, generateProwJobAnnotations repoName jobName tgExtras = some l →
      l = ["  testgrid-dashboards: " ++ repoName, "  testgrid-tab-name: " ++ jobName]
        ++ optLine (lookupKV tgExtras "alert_stale_results_hours")
            (fun v => "  testgrid-alert-stale-results-hours: \"" ++ v ++ "\"")
        ++ optLine (lookupKV tgExtras "short_text_metric")
            (fun v => "  testgrid-in-cell-metric: " ++ v)
        ++ optLine ((lookupKV tgExtras "alert_options").bind findQuotedEmail)
            (fun email => "  testgrid-alert-email: \"" ++ email ++ "\"")
        ++ optLine (lookupKV tgExtras "num_failures_to_alert")
            (fun v => "  testgrid-num-failures-to-alert: \"" ++ v ++ "\"")) := by
  unfold generateProwJobAnnotations
  cases h3 : lookupKV tgExtras "alert_options" with
  | none =>
    cases h1 : lookupKV tgExtras "alert_stale_results_hours" <;>
      cases h2 : lookupKV tgExtras "short_text_metric" <;>
        cases h4 : lookupKV tgExtras "num_failures_to_alert" <;>
          simp [h1, h2, h3, h4, optLine]
  | some v =>
    cases h5 : findQuotedEmail v with
    | none =>
      cases h1 : lookupKV tgExtras "alert_stale_results_hours" <;>
        cases h2 : lookupKV tgExtras "short_text_metric" <;>
          cases h4 : lookupKV tgExtras "num_failures_to_alert" <;>
            simp [h1, h2, h3, h4, h5, optLine]
    | some email =>
      cases h1 : lookupKV tgExtras "alert_stale_results_hours" <;>
        cases h2 : lookupKV tgExtras "short_text_metric" <;>
          cases h4 : lookupKV tgExtras "num_failures_to_alert" <;>
            simp [h1, h2, h3, h4, h5, optLine]

/-- Concrete extras used to witness C6. -/
def c6Extras : Extras :=
  [("alert_stale_results_hours", "170"),
   ("num_failures_to_alert", "1"),
   ("alert_options", testgroupAlertOptions)]

/-- The annotation lines produced for `c6Extras`. -/
def c6Anns : List String :=
  ["  testgrid-dashboards: serving",
   "  testgrid-tab-name: dot-release",
   "  testgrid-alert-stale-results-hours: \"170\"",
   "  testgrid-alert-email: \"serverless-engprod-sea@google.com\"",
   "  testgrid-num-failures-to-alert: \"1\""]

/-- C6 witness: `generateProwJobAnnotations_spec` applied at concrete inputs,
with its success hypothesis discharged by evaluation. -/
theorem generateProwJobAnnotations_spec_witness :
    c6Anns =
      ["  testgrid-dashboards: " ++ "serving", "  testgrid-tab-name: " ++ "dot-release"]
        ++ optLine (lookupKV c6Extras "alert_stale_results_hours")
            (fun v => "  testgrid-alert-stale-results-hours: \"" ++ v ++ "\"")
        ++ optLine (lookupKV c6Extras "short_text_metric")
            (fun v => "  testgrid-in-cell-metric: " ++ v)
        ++ optLine ((lookupKV c6Extras "alert_options").bind findQuotedEmail)
            (fun email => "  testgrid-alert-email: \"" ++ email ++ "\"")
        ++ optLine (lookupKV c6Extras "num_failures_to_alert")
            (fun v => "  testgrid-num-failures-to-alert: \"" ++ v ++ "\"") :=
  (generateProwJobAnnotations_spec "serving" "dot-release" c6Extras).2 c6Anns (by decide)

/-!
The Grouping Store (`TestGridMetaData`) and its get-or-create operations.
-/

/-- `JobDetailMap`: repository name → ordered job-kind names (a Go map
embedded as an association list). -/
abbrev JobDetailMap := List (String × List String)

/-- Modelled from the spec: `JobDetailMap.EnsureExists` (defined outside the
given sources) get-or-creates the repo entry inside a JobDetailMap and
returns whether it already existed. -/
def JobDetailMap.EnsureExists (jdm : JobDetailMap) (repoName : String) :
    JobDetailMap × Bool :=
  match lookupKV jdm repoName with
  | some _ => (jdm, true)
  | none => (jdm ++ [(repoName, [])], false)

/-- Modelled from the spec: `NonAlignedTestGroup` (the "NonAlignedEntry":
job identifier, display tab name, owning dashboard name, owning
dashboard-group name, base display options, extra policy key-values), with
the field names testgrid_config.go uses. -/
structure NonAlignedTestGroup where
  CIJobName : String
  HumanTabName : String
  DashboardName : String
  DashboardGroup : String
  BaseOptions : String
  Extra : Extras
deriving DecidableEq

/-- `TestGridMetaData`: the Grouping Store (project → JobDetailMap, the
insertion-ordered name lists, and the non-aligned entries). -/
structure TestGridMetaData where
  md : List (String × JobDetailMap)
  projNames : List String
  repoNames : List String
  nonAligned : List NonAlignedTestGroup
deriving DecidableEq

/-- The empty Grouping Store (`NewTestGridMetaData`). -/
def emptyMetaData : TestGridMetaData :=
  { md := [], projNames := [], repoNames := [], nonAligned := [] }

/-- Embeds `TestGridMetaData.EnsureExists` from testgrid_config.go. -/
def TestGridMetaData.EnsureExists (t : TestGridMetaData) (projName : String) :
    TestGridMetaData × Bool :=
  match lookupKV t.md projName with
  | some _ => (t, true)
  | none =>
    let t1 := { t with md := t.md ++ [(projName, ([] : JobDetailMap))] }
    let t2 :=
      if strExists t1.projNames projName then t1
      else { t1 with projNames := t1.projNames ++ [projName] }
    (t2, false)

/-- Embeds `TestGridMetaData.Get` from testgrid_config.go: ensure the
project exists, then return its JobDetailMap. -/
def TestGridMetaData.Get (t : TestGridMetaData) (projName : String) :
    TestGridMetaData × JobDetailMap :=
  let t2 := (t.EnsureExists projName).1
  (t2, (lookupKV t2.md projName).getD [])

/-- Embeds `TestGridMetaData.EnsureRepo` from testgrid_config.go; the
JobDetailMap returned by `Get` is a Go map reference, so the entry created
by `JobDetailMap.EnsureExists` is written back into `md`. -/
def TestGridMetaData.EnsureRepo (t : TestGridMetaData) (projName repoName : String) :
    TestGridMetaData × Bool :=
  let pair := t.Get projName
  let t2 := pair.1
  let jdmPair := JobDetailMap.EnsureExists pair.2 repoName
  if jdmPair.2 then (t2, true)
  else
    let t3 := { t2 with md := setKV t2.md projName jdmPair.1 }
    let t4 :=
      if strExists t3.repoNames repoName then t3
      else { t3 with repoNames := t3.repoNames ++ [repoName] }
    (t4, false)

/-- One C5 store operation. -/
inductive StoreOp where
  | ensureProject (proj : String)
  | ensureRepo (proj repo : String)
deriving DecidableEq

/-- Apply one store operation (discarding the `existed` result). -/
def applyStoreOp (t : TestGridMetaData) : StoreOp → TestGridMetaData
  | .ensureProject p => (t.EnsureExists p).1
  | .ensureRepo p r => (t.EnsureRepo p r).1

/-- Run a sequence of store operations from the empty store. -/
def runStoreOps (ops : List StoreOp) : TestGridMetaData :=
  ops.foldl applyStoreOp emptyMetaData

/-- The project name an operation touches. -/
def opProj : StoreOp → String
  | .ensureProject p => p
  | .ensureRepo p _ => p

/-- The repository name an operation touches, if any. -/
def opRepo : StoreOp → Option String
  | .ensureProject _ => none
  | .ensureRepo _ r => some r

/-- The deduplicated first-seen subsequence of a list of names. -/
def firstSeen (l : List String) : List String :=
  l.foldl (fun acc x => if strExists acc x then acc else acc ++ [x]) []

theorem strExists_iff (l : List String) (x : String) :
    strExists l x = true ↔ x ∈ l := by
  simp [strExists, List.elem_iff]

theorem strExists_false_iff (l : List String) (x : String) :
    strExists l x = false ↔ x ∉ l := by
  rw [← Bool.not_eq_true, not_iff_not]
  exact strExists_iff l x

theorem lookupKV_nil {α : Type} (k : String) : lookupKV ([] : List (String × α)) k = none :=
  rfl

theorem lookupKV_cons {α : Type} (p : String × α) (m : List (String × α)) (k : String) :
    lookupKV (p :: m) k = if p.1 = k then some p.2 else lookupKV m k := by
  by_cases h : p.1 = k
  · simp [lookupKV, List.find?_cons_of_pos, h]
  · simp [lookupKV, List.find?_cons_of_neg, h]

theorem lookupKV_append {α : Type} (m1 m2 : List (String × α)) (k : String) :
    lookupKV (m1 ++ m2) k =
      match lookupKV m1 k with
      | some v => some v
      | none => lookupKV m2 k := by
  induction m1 with
  | nil => simp [lookupKV]
  | cons hd tl ih =>
    by_cases h : hd.1 = k
    · rw [List.cons_append, lookupKV_cons, lookupKV_cons, if_pos h, if_pos h]
    · rw [List.cons_append, lookupKV_cons, lookupKV_cons, if_neg h, if_neg h, ih]

theorem lookupKV_setKV {α : Type} (m : List (String × α)) (k : String) (v : α) (q : String) :
    lookupKV (setKV m k v) q = if k = q then some v else lookupKV m q := by
  induction m with
  | nil =>
    by_cases h : k = q
    · simp [setKV, lookupKV_cons, h]
    · simp [setKV, lookupKV_cons, h, lookupKV]
  | cons hd tl ih =>
    by_cases hk : hd.1 = k
    · rw [setKV]
      rw [if_pos (by simp [hk])]
      by_cases hq : k = q
      · rw [lookupKV_cons, if_pos hq, if_pos hq]
      · rw [lookupKV_cons, lookupKV_cons, if_neg hq, if_neg hq, if_neg (hk ▸ hq)]
    · rw [setKV]
      rw [if_neg (by simp [hk])]
      by_cases hq : k = q
      · rw [lookupKV_cons, if_neg (hq ▸ hk), ih, if_pos hq, if_pos hq]
      · rw [lookupKV_cons, lookupKV_cons, ih, if_neg hq, if_neg hq]

theorem nodup_append_singleton {l : List String} {x : String}
    (h : l.Nodup) (hx : x ∉ l) : (l ++ [x]).Nodup := by
  simp [List.nodup_append, h, hx]

theorem firstSeen_append_singleton (l : List String) (x : String) :
    firstSeen (l ++ [x]) =
      if strExists (firstSeen l) x then firstSeen l else firstSeen l ++ [x] := by
  simp [firstSeen, List.foldl_append]

theorem firstSeen_nil : firstSeen [] = [] := rfl

/-- The C5 store invariant: the order lists are duplicate-free, the map keys
are exactly the tracked project names, and every repository key in any
project's JobDetailMap is tracked in `repoNames`. -/
def StoreInv (t : TestGridMetaData) : Prop :=
  t.projNames.Nodup ∧ t.repoNames.Nodup ∧
  (∀ p, (lookupKV t.md p).isSome = true ↔ p ∈ t.projNames) ∧
  (∀ p jdm, lookupKV t.md p = some jdm →
    ∀ r, (lookupKV jdm r).isSome = true → r ∈ t.repoNames)

theorem ensureExists_step (t : TestGridMetaData) (p : String) (hinv : StoreInv t) :
    StoreInv (t.EnsureExists p).1 ∧
    (t.EnsureExists p).1.projNames =
      (if p ∈ t.projNames then t.projNames else t.projNames ++ [p]) ∧
    (t.EnsureExists p).1.repoNames = t.repoNames ∧
    (lookupKV (t.EnsureExists p).1.md p).isSome = true := by
  obtain ⟨hnd1, hnd2, hiff, hrep⟩ := hinv
  cases hmd : lookupKV t.md p with
  | some jdm =>
    have hp : p ∈ t.projNames := (hiff p).mp (by rw [hmd]; rfl)
    have hres : (t.EnsureExists p).1 = t := by
      unfold TestGridMetaData.EnsureExists
      rw [hmd]
    rw [hres]
    exact ⟨⟨hnd1, hnd2, hiff, hrep⟩, (if_pos hp).symm, rfl, by rw [hmd]; rfl⟩
  | none =>
    have hp : p ∉ t.projNames := by
      intro hmem
      have := (hiff p).mpr hmem
      rw [hmd] at this
      exact Bool.noConfusion this
    have hse : strExists t.projNames p = false := (strExists_false_iff _ _).mpr hp
    have hres : (t.EnsureExists p).1 =
        { t with md := t.md ++ [(p, ([] : JobDetailMap))],
                 projNames := t.projNames ++ [p] } := by
      unfold TestGridMetaData.EnsureExists
      rw [hmd]
      simp only [hse]
      rfl
    rw [hres]
    refine ⟨⟨nodup_append_singleton hnd1 hp, hnd2, ?_, ?_⟩, ?_, rfl, ?_⟩
    · intro q
      rw [lookupKV_append]
      cases hq : lookupKV t.md q with
      | some jdm0 =>
        have hqmem : q ∈ t.projNames := (hiff q).mp (by rw [hq]; rfl)
        simp [List.mem_append, hqmem]
      | none =>
        have hqmem : q ∉ t.projNames := by
          intro hmem
          have := (hiff q).mpr hmem
          rw [hq] at this
          exact Bool.noConfusion this
        by_cases hpq : p = q
        · subst hpq
          rw [lookupKV_cons]
          simp
        · rw [lookupKV_cons, if_neg hpq, lookupKV_nil]
          simp [hqmem, Ne.symm hpq]
    · intro q jdm hq r hr
      rw [lookupKV_append] at hq
      cases hq0 : lookupKV t.md q with
      | some jdm0 =>
        rw [hq0] at hq
        injection hq with hq
        subst hq
        exact hrep q jdm0 hq0 r hr
      | none =>
        rw [hq0] at hq
        by_cases hpq : p = q
        · subst hpq
          rw [lookupKV_cons, if_pos rfl] at hq
          injection hq with hq
          rw [← hq] at hr
          rw [lookupKV_nil] at hr
          exact Bool.noConfusion hr
        · rw [lookupKV_cons, if_neg hpq, lookupKV_nil] at hq
          exact Option.noConfusion hq
    · rw [if_neg hp]
    · rw [lookupKV_append, hmd, lookupKV_cons, if_pos rfl]
      rfl

theorem ensureRepo_step (t : TestGridMetaData) (p r : String) (hinv : StoreInv t) :
    StoreInv (t.EnsureRepo p r).1 ∧
    (t.EnsureRepo p r).1.projNames =
      (if p ∈ t.projNames then t.projNames else t.projNames ++ [p]) ∧
    (t.EnsureRepo p r).1.repoNames =
      (if r ∈ t.repoNames then t.repoNames else t.repoNames ++ [r]) := by
  obtain ⟨hinv2, hproj2, hrepo2, hsome⟩ := ensureExists_step t p hinv
  obtain ⟨jdm0, hlook⟩ := Option.isSome_iff_exists.mp hsome
  have hget : t.Get p = ((t.EnsureExists p).1, jdm0) := by
    show ((t.EnsureExists p).1, (lookupKV (t.EnsureExists p).1.md p).getD []) = _
    rw [hlook]
    rfl
  obtain ⟨hnd1, hnd2, hiff, hrep⟩ := hinv2
  cases hr0 : lookupKV jdm0 r with
  | some _ =>
    have hres : (t.EnsureRepo p r).1 = (t.EnsureExists p).1 := by
      simp only [TestGridMetaData.EnsureRepo, hget, JobDetailMap.EnsureExists, hr0,
        if_true, if_false]
    have hrmem : r ∈ t.repoNames := by
      rw [← hrepo2]
      exact hrep p jdm0 hlook r (by rw [hr0]; rfl)
    rw [hres]
    exact ⟨⟨hnd1, hnd2, hiff, hrep⟩, hproj2, by rw [hrepo2, if_pos hrmem]⟩
  | none =>
    have hpmem : p ∈ (t.EnsureExists p).1.projNames := (hiff p).mp hsome
    cases hsr : strExists (t.EnsureExists p).1.repoNames r with
    | true =>
      have hrmem : r ∈ t.repoNames := by
        rw [← hrepo2]
        exact (strExists_iff _ _).mp hsr
      have hres : (t.EnsureRepo p r).1 =
          { (t.EnsureExists p).1 with
            md := setKV (t.EnsureExists p).1.md p (jdm0 ++ [(r, [])]) } := by
        simp only [TestGridMetaData.EnsureRepo, hget, JobDetailMap.EnsureExists, hr0, hsr,
          if_true, if_false, Bool.false_eq_true]
      rw [hres]
      refine ⟨⟨hnd1, hnd2, ?_, ?_⟩, hproj2, by rw [hrepo2, if_pos hrmem]⟩
      · intro q
        rw [lookupKV_setKV]
        by_cases hpq : p = q
        · subst hpq
          simp [hpmem]
        · rw [if_neg hpq]
          exact hiff q
      · intro q jdm hq r2 hr2
        rw [lookupKV_setKV] at hq
        by_cases hpq : p = q
        · rw [if_pos hpq] at hq
          injection hq with hq
          subst hq
          rw [lookupKV_append] at hr2
          cases hq0 : lookupKV jdm0 r2 with
          | some v =>
            rw [hq0] at hr2
            exact hrep p jdm0 hlook r2 (by rw [hq0]; rfl)
          | none =>
            rw [hq0] at hr2
            by_cases hrr : r = r2
            · subst hrr
              rw [← hrepo2] at hrmem
              exact hrmem
            · rw [lookupKV_cons, if_neg hrr, lookupKV_nil] at hr2
              exact Bool.noConfusion hr2
        · rw [if_neg hpq] at hq
          exact hrep q jdm hq r2 hr2
    | false =>
      have hrnot : r ∉ t.repoNames := by
        rw [← hrepo2]
        exact (strExists_false_iff _ _).mp hsr
      have hres : (t.EnsureRepo p r).1 =
          { (t.EnsureExists p).1 with
            md := setKV (t.EnsureExists p).1.md p (jdm0 ++ [(r, [])])
            repoNames := (t.EnsureExists p).1.repoNames ++ [r] } := by
        simp only [TestGridMetaData.EnsureRepo, hget, JobDetailMap.EnsureExists, hr0, hsr,
          if_true, if_false, Bool.false_eq_true]
      rw [hres]
      refine ⟨⟨hnd1, nodup_append_singleton hnd2 (hrepo2 ▸ hrnot), ?_, ?_⟩,
        hproj2, by rw [hrepo2, if_neg hrnot]⟩
      · intro q
        rw [lookupKV_setKV]
        by_cases hpq : p = q
        · subst hpq
          simp [hpmem]
        · rw [if_neg hpq]
          exact hiff q
      · intro q jdm hq r2 hr2
        rw [lookupKV_setKV] at hq
        by_cases hpq : p = q
        · rw [if_pos hpq] at hq
          injection hq with hq
          subst hq
          rw [lookupKV_append] at hr2
          cases hq0 : lookupKV jdm0 r2 with
          | some v =>
            exact List.mem_append_left _ (hrep p jdm0 hlook r2 (by rw [hq0]; rfl))
          | none =>
            rw [hq0] at hr2
            by_cases hrr : r = r2
            · subst hrr
              exact List.mem_append_right _ (by simp)
            · rw [lookupKV_cons, if_neg hrr, lookupKV_nil] at hr2
              exact Bool.noConfusion hr2
        · rw [if_neg hpq] at hq
          exact List.mem_append_left _ (hrep q jdm hq r2 hr2)

theorem ifMem_eq_ifStrExists (l : List String) (x : String) :
    (if x ∈ l then l else l ++ [x]) =
      (if strExists l x then l else l ++ [x]) := by
  cases hse : strExists l x with
  | true => simp [(strExists_iff _ _).mp hse]
  | false => simp [(strExists_false_iff _ _).mp hse]

theorem runStoreOps_aux (ops : List StoreOp) :
    ∀ (t : TestGridMetaData) (P R : List String),
      StoreInv t → t.projNames = firstSeen P → t.repoNames = firstSeen R →
      StoreInv (ops.foldl applyStoreOp t) ∧
      (ops.foldl applyStoreOp t).projNames = firstSeen (P ++ ops.map opProj) ∧
      (ops.foldl applyStoreOp t).repoNames = firstSeen (R ++ ops.filterMap opRepo) := by
  induction ops with
  | nil =>
    intro t P R h hP hR
    simpa using ⟨h, hP, hR⟩
  | cons op ops ih =>
    intro t P R h hP hR
    cases op with
    | ensureProject p =>
      obtain ⟨h1, h2, h3, _⟩ := ensureExists_step t p h
      have hP2 : (applyStoreOp t (.ensureProject p)).projNames = firstSeen (P ++ [p]) := by
        show (t.EnsureExists p).1.projNames = _
        rw [h2, hP, firstSeen_append_singleton]
        exact ifMem_eq_ifStrExists _ _
      have hR2 : (applyStoreOp t (.ensureProject p)).repoNames = firstSeen R := by
        show (t.EnsureExists p).1.repoNames = _
        rw [h3, hR]
      have hrec := ih (applyStoreOp t (.ensureProject p)) (P ++ [p]) R h1 hP2 hR2
      simpa [applyStoreOp, opProj, opRepo, List.append_assoc] using hrec
    | ensureRepo p r =>
      obtain ⟨h1, h2, h3⟩ := ensureRepo_step t p r h
      have hP2 : (applyStoreOp t (.ensureRepo p r)).projNames = firstSeen (P ++ [p]) := by
        show (t.EnsureRepo p r).1.projNames = _
        rw [h2, hP, firstSeen_append_singleton]
        exact ifMem_eq_ifStrExists _ _
      have hR2 : (applyStoreOp t (.ensureRepo p r)).repoNames = firstSeen (R ++ [r]) := by
        show (t.EnsureRepo p r).1.repoNames = _
        rw [h3, hR, firstSeen_append_singleton]
        exact ifMem_eq_ifStrExists _ _
      have hrec := ih (applyStoreOp t (.ensureRepo p r)) (P ++ [p]) (R ++ [r]) h1 hP2 hR2
      simpa [applyStoreOp, opProj, opRepo, List.append_assoc] using hrec

/-- C5: for every sequence of `EnsureProject`/`EnsureRepo` operations run
from the empty store, `projNames` and `repoNames` are duplicate-free and
equal the first-seen subsequences of the touched project and repository
names; every project key in the store's map appears in `projNames`, and
every repository key in any project's JobDetailMap appears in `repoNames`. -/
theorem runStoreOps_spec (ops : List StoreOp) :
    (runStoreOps ops).projNames.Nodup ∧
    (runStoreOps ops).repoNames.Nodup ∧
    (runStoreOps ops).projNames = firstSeen (ops.map opProj) ∧
    (runStoreOps ops).repoNames = firstSeen (ops.filterMap opRepo) ∧
    (∀ p, (lookupKV (runStoreOps ops).md p).isSome = true →
      p ∈ (runStoreOps ops).projNames) ∧
    (∀ p jdm, lookupKV (runStoreOps ops).md p = some jdm →
      ∀ r, (lookupKV jdm r).isSome = true → r ∈ (runStoreOps ops).repoNames) := by
  have hempty : StoreInv emptyMetaData := by
    refine ⟨List.nodup_nil, List.nodup_nil, ?_, ?_⟩
    · intro p
      simp [emptyMetaData, lookupKV_nil]
    · intro p jdm hp
      exact Option.noConfusion hp
  obtain ⟨hinv, hP, hR⟩ := runStoreOps_aux ops emptyMetaData [] [] hempty rfl rfl
  obtain ⟨hnd1, hnd2, hiff, hrep⟩ := hinv
  exact ⟨hnd1, hnd2, by simpa using hP, by simpa using hR,
    fun p hp => (hiff p).mp hp, hrep⟩

/-- C5 witness: `runStoreOps_spec` applied at a concrete operation sequence,
with the map-key hypotheses discharged by evaluation. -/
theorem runStoreOps_spec_witness :
    "p" ∈ (runStoreOps [StoreOp.ensureRepo "p" "r"]).projNames ∧
    "r" ∈ (runStoreOps [StoreOp.ensureRepo "p" "r"]).repoNames :=
  ⟨(runStoreOps_spec [StoreOp.ensureRepo "p" "r"]).2.2.2.2.1 "p" (by decide),
   (runStoreOps_spec [StoreOp.ensureRepo "p" "r"]).2.2.2.2.2 "p" [("r", [])]
     (by decide) "r" (by decide)⟩

/-- An emission step: the function appends a fixed item list to the output
and grows the count accordingly. -/
def EmitsItems {β : Type} (g : Output → β → Output) (f : β → List OutputItem) : Prop :=
  ∀ (o : Output) (b : β),
    g o b = { items := o.items ++ f b, count := o.count + (f b).length }

theorem foldl_emits {β : Type} {g : Output → β → Output} {f : β → List OutputItem}
    (hg : EmitsItems g f) (l : List β) (o : Output) :
    l.foldl g o =
      { items := o.items ++ (l.map f).flatten
        count := o.count + ((l.map f).flatten).length } := by
  induction l generalizing o with
  | nil => simp
  | cons b l ih =>
    rw [List.foldl_cons, hg, ih]
    simp [List.append_assoc]
    omega

/-- Embeds `generateTestGroup` from testgrid_config.go: one test group per
job name; the group name comes from `getTestGroupName`, but for job kind
`test-coverage` the GCS log directory is instead derived from the
`ci-{projRepoStr}-go-coverage` name. -/
def generateTestGroup (env : Env) (projName repoName : String) (jobNames : List String)
    (o : Output) : Output :=
  let projRepoStr := env.buildProjRepoStr projName repoName
  jobNames.foldl
    (fun o jobName =>
      let testGroupName := getTestGroupName projRepoStr jobName
      let testGroupNameForGCSLogDir :=
        if jobName = "test-coverage" then "ci-" ++ projRepoStr ++ "-" ++ "go-coverage"
        else testGroupName
      executeTestGroupTemplate testGroupName (getGcsLogDir env testGroupNameForGCSLogDir)
        (getTestgroupExtras env projName jobName) o) o

/-- The test-group record emitted by `generateTestGroup` for one job. -/
def testGroupItemForJob (env : Env) (projName projRepoStr jobName : String) : OutputItem :=
  .testGroup
    { Base := { zeroBase with TestGroupName := getTestGroupName projRepoStr jobName }
      GcsLogDir :=
        getGcsLogDir env
          (if jobName = "test-coverage" then "ci-" ++ projRepoStr ++ "-" ++ "go-coverage"
           else getTestGroupName projRepoStr jobName)
      Extras := getTestgroupExtras env projName jobName }

theorem generateTestGroup_items (env : Env) (projName repoName : String)
    (jobNames : List String) (o : Output) :
    generateTestGroup env projName repoName jobNames o =
      { items := o.items ++ jobNames.map
          (testGroupItemForJob env projName (env.buildProjRepoStr projName repoName))
        count := o.count + jobNames.length } := by
  unfold generateTestGroup
  have hg : EmitsItems
      (fun o jobName =>
        executeTestGroupTemplate
          (getTestGroupName (env.buildProjRepoStr projName repoName) jobName)
          (getGcsLogDir env
            (if jobName = "test-coverage" then
              "ci-" ++ env.buildProjRepoStr projName repoName ++ "-" ++ "go-coverage"
             else getTestGroupName (env.buildProjRepoStr projName repoName) jobName))
          (getTestgroupExtras env projName jobName) o)
      (fun jobName =>
        [testGroupItemForJob env projName (env.buildProjRepoStr projName repoName) jobName]) := by
    intro o b
    rfl
  rw [foldl_emits hg]
  congr 1
  · congr 1
    induction jobNames with
    | nil => rfl
    | cons j js ih => simp [ih]
  · simp [Function.comp]
    induction jobNames with
    | nil => rfl
    | cons j js ih =>
      simp [ih]
      omega

/-- Embeds `generateTestGridSection` from testgrid_config.go: record the old
count, emit the section header, walk `projNames`/`repoNames` in order
calling the generator on populated cells, and emit the bogus
`- name: empty` entry if the count is unchanged. -/
def generateTestGridSection (env : Env) (sectionName : String)
    (generator : String → String → List String → Output → Output)
    (skipReleasedProj : Bool) (t : TestGridMetaData) (o : Output) : Output :=
  let oldCount := o.count
  let o := outputConfig (sectionName ++ ":") o
  let o := t.projNames.foldl
    (fun o projName =>
      if skipReleasedProj && env.isReleased projName then o
      else
        let repos := (lookupKV t.md projName).getD []
        t.repoNames.foldl
          (fun o repoName =>
            match lookupKV repos repoName with
            | some jobNames => generator projName repoName jobNames o
            | none => o) o) o
  if o.count == oldCount then outputConfig (env.baseIndent ++ "- name: empty") o
  else o

/-- The items the section walk emits, given the per-cell emitted items. -/
def sectionWalkItems (env : Env)
    (genItems : String → String → List String → List OutputItem)
    (skipReleasedProj : Bool) (t : TestGridMetaData) : List OutputItem :=
  (t.projNames.map (fun projName =>
    if skipReleasedProj && env.isReleased projName then []
    else
      let repos := (lookupKV t.md projName).getD []
      (t.repoNames.map (fun repoName =>
        match lookupKV repos repoName with
        | some jobNames => genItems projName repoName jobNames
        | none => [])).flatten)).flatten

theorem generateTestGridSection_items (env : Env) (sectionName : String)
    {generator : String → String → List String → Output → Output}
    {genItems : String → String → List String → List OutputItem}
    (hg : ∀ pn rn jobs o, generator pn rn jobs o =
      { items := o.items ++ genItems pn rn jobs
        count := o.count + (genItems pn rn jobs).length })
    (skipReleasedProj : Bool) (t : TestGridMetaData) (o : Output) :
    generateTestGridSection env sectionName generator skipReleasedProj t o =
      { items := (o.items ++ [.line (sectionName ++ ":")]) ++
          sectionWalkItems env genItems skipReleasedProj t
        count := o.count + 1 +
          (sectionWalkItems env genItems skipReleasedProj t).length } := by
  have hinner : ∀ (projName : String) (repos : JobDetailMap),
      EmitsItems
        (fun o repoName =>
          match lookupKV repos repoName with
          | some jobNames => generator projName repoName jobNames o
          | none => o)
        (fun repoName =>
          match lookupKV repos repoName with
          | some jobNames => genItems projName repoName jobNames
          | none => []) := by
    intro projName repos o repoName
    cases h : lookupKV repos repoName with
    | some jobNames => simp [h, hg]
    | none => simp [h]
  have houter : EmitsItems
      (fun o projName =>
        if skipReleasedProj && env.isReleased projName then o
        else
          let repos := (lookupKV t.md projName).getD []
          t.repoNames.foldl
            (fun o repoName =>
              match lookupKV repos repoName with
              | some jobNames => generator projName repoName jobNames o
              | none => o) o)
      (fun projName =>
        if skipReleasedProj && env.isReleased projName then []
        else
          let repos := (lookupKV t.md projName).getD []
          (t.repoNames.map (fun repoName =>
            match lookupKV repos repoName with
            | some jobNames => genItems projName repoName jobNames
            | none => [])).flatten) := by
    intro o projName
    by_cases h : skipReleasedProj && env.isReleased projName
    · simp [h]
    · simp only [h, if_false, Bool.false_eq_true]
      rw [foldl_emits (hinner projName ((lookupKV t.md projName).getD []))]
  have hfold := foldl_emits houter t.projNames (outputConfig (sectionName ++ ":") o)
  simp only [generateTestGridSection]
  rw [hfold]
  split
  next hcond =>
    exfalso
    simp only [outputConfig, beq_iff_eq] at hcond
    omega
  next hcond =>
    simp only [outputConfig]
    rfl

/-- C3 (the code contradicts it): on the empty Grouping Store the section
generator emits only the section header — no placeholder entry. `oldCount`
is recorded before the header line is emitted, and the header itself raises
the count, so the `count == oldCount` placeholder branch can never fire and
the claimed `- name: empty` entry is not produced. -/
theorem generateTestGridSection_empty_store_bug :
    (generateTestGridSection envCex "test_groups" (generateTestGroup envCex) false
        emptyMetaData { items := [], count := 0 }).items
      = [OutputItem.line "test_groups:"] ∧
    (generateTestGridSection envCex "test_groups" (generateTestGroup envCex) false
        emptyMetaData { items := [], count := 0 }).items
      ≠ [OutputItem.line "test_groups:", OutputItem.line "  - name: empty"] := by
  refine ⟨by decide, by decide⟩

/-- C10: in the test-group pass each job emits one test group named by
`getTestGroupName`, whose GCS log directory is derived from
`ci-{projRepoStr}-go-coverage` when the job kind is `test-coverage`, and
from the test group's own name for every other job kind
(`GCSBucket/LogsDir/name` via `getGcsLogDir`). -/
theorem generateTestGroup_gcsLogDir_spec (env : Env) (projName repoName : String)
    (jobNames : List String) (o : Output) :
    (generateTestGroup env projName repoName jobNames o).items =
      o.items ++ jobNames.map (fun jobName =>
        let prs := env.buildProjRepoStr projName repoName
        OutputItem.testGroup
          { Base := { zeroBase with TestGroupName := getTestGroupName prs jobName }
            GcsLogDir :=
              if jobName = "test-coverage" then
                getGcsLogDir env ("ci-" ++ prs ++ "-" ++ "go-coverage")
              else
                getGcsLogDir env (getTestGroupName prs jobName)
            Extras := getTestgroupExtras env projName jobName }) := by
  rw [generateTestGroup_items]
  simp only []
  congr 1
  apply List.map_congr_left
  intro jobName _
  by_cases h : jobName = "test-coverage" <;>
    simp [testGroupItemForJob, h, apply_ite (getGcsLogDir env)]

theorem firstSeen_mem_aux (l : List String) :
    ∀ (acc : List String) (x : String),
      (x ∈ l.foldl (fun acc y => if strExists acc y then acc else acc ++ [y]) acc ↔
        x ∈ acc ∨ x ∈ l) := by
  induction l with
  | nil => simp
  | cons y l ih =>
    intro acc x
    rw [List.foldl_cons]
    cases hse : strExists acc y with
    | true =>
      rw [ih]
      have hy : y ∈ acc := (strExists_iff _ _).mp hse
      constructor
      · rintro (h | h)
        · exact Or.inl h
        · exact Or.inr (List.mem_cons_of_mem _ h)
      · rintro (h | h)
        · exact Or.inl h
        · rcases List.mem_cons.mp h with h | h
          · exact Or.inl (h ▸ hy)
          · exact Or.inr h
    | false =>
      rw [ih]
      simp [List.mem_append, List.mem_cons, or_assoc]

theorem firstSeen_mem (l : List String) (x : String) :
    x ∈ firstSeen l ↔ x ∈ l := by
  rw [firstSeen, firstSeen_mem_aux]
  simp

/-- The loop body of `generateNonAlignedDashboardGroups`'s collection loop:
first-seen registration of the entry's `DashboardGroup` key, then
deduplicated append of its `DashboardName`. -/
def dashGroupStep (acc : List String × List (String × List String))
    (tg : NonAlignedTestGroup) : List String × List (String × List String) :=
  let acc2 :=
    if (lookupKV acc.2 tg.DashboardGroup).isSome then acc
    else (acc.1 ++ [tg.DashboardGroup], setKV acc.2 tg.DashboardGroup [])
  if strExists ((lookupKV acc2.2 tg.DashboardGroup).getD []) tg.DashboardName then acc2
  else
    (acc2.1,
     setKV acc2.2 tg.DashboardGroup
       (((lookupKV acc2.2 tg.DashboardGroup).getD []) ++ [tg.DashboardName]))

/-- Embeds `generateNonAlignedDashboardGroups` from testgrid_config.go:
collect dashboard names by `DashboardGroup` in first-seen order, then emit
one dashboard-group record per collected key. -/
def generateNonAlignedDashboardGroups (t : TestGridMetaData) (o : Output) : Output :=
  let acc := t.nonAligned.foldl dashGroupStep ([], [])
  acc.1.foldl
    (fun o group =>
      executeDashboardGroupTemplate group ((lookupKV acc.2 group).getD []) o) o

/-- The distinct `DashboardGroup` values of the entries, first-seen order. -/
def groupKeysOf (l : List NonAlignedTestGroup) : List String :=
  firstSeen (l.map (fun tg => tg.DashboardGroup))

/-- The distinct `DashboardName` values observed under one group, first-seen
order. -/
def groupNamesOf (l : List NonAlignedTestGroup) (g : String) : List String :=
  firstSeen ((l.filter (fun tg => tg.DashboardGroup == g)).map (fun tg => tg.DashboardName))

/-- The collection-loop invariant of `generateNonAlignedDashboardGroups`. -/
def DGInv (processed : List NonAlignedTestGroup)
    (acc : List String × List (String × List String)) : Prop :=
  acc.1 = groupKeysOf processed ∧
  ∀ g, lookupKV acc.2 g =
    if g ∈ groupKeysOf processed then some (groupNamesOf processed g) else none

theorem groupNamesOf_of_not_mem (processed : List NonAlignedTestGroup) (g : String)
    (h : g ∉ groupKeysOf processed) : groupNamesOf processed g = [] := by
  have hmap : g ∉ processed.map (fun tg => tg.DashboardGroup) := by
    intro hm
    exact h ((firstSeen_mem _ _).mpr hm)
  have hfil : processed.filter (fun tg => tg.DashboardGroup == g) = [] := by
    rw [List.filter_eq_nil_iff]
    intro a ha hag
    exact hmap (List.mem_map.mpr ⟨a, ha, by simpa using hag⟩)
  rw [groupNamesOf, hfil]
  rfl

theorem dashGroupStep_inv (processed : List NonAlignedTestGroup)
    (acc : List String × List (String × List String)) (tg : NonAlignedTestGroup)
    (h : DGInv processed acc) : DGInv (processed ++ [tg]) (dashGroupStep acc tg) := by
  obtain ⟨h1, h2⟩ := h
  have hkeys2 : groupKeysOf (processed ++ [tg]) =
      (if tg.DashboardGroup ∈ groupKeysOf processed then groupKeysOf processed
       else groupKeysOf processed ++ [tg.DashboardGroup]) := by
    rw [groupKeysOf, List.map_append, List.map_cons, List.map_nil,
      firstSeen_append_singleton]
    rw [← groupKeysOf]
    exact (ifMem_eq_ifStrExists _ _).symm
  have hnames2 : ∀ g, groupNamesOf (processed ++ [tg]) g =
      (if g = tg.DashboardGroup then
        (if strExists (groupNamesOf processed g) tg.DashboardName then
          groupNamesOf processed g
         else groupNamesOf processed g ++ [tg.DashboardName])
       else groupNamesOf processed g) := by
    intro g
    by_cases hg : g = tg.DashboardGroup
    · rw [if_pos hg, groupNamesOf, List.filter_append]
      have hfil1 : List.filter (fun tg2 => tg2.DashboardGroup == g) [tg] = [tg] := by
        simp [List.filter_cons, hg]
      rw [hfil1, List.map_append, List.map_cons, List.map_nil, firstSeen_append_singleton]
      rfl
    · rw [if_neg hg, groupNamesOf, List.filter_append]
      have hfil0 : List.filter (fun tg2 => tg2.DashboardGroup == g) [tg] = [] := by
        simp only [List.filter_cons, List.filter_nil]
        rw [if_neg]
        simp only [beq_iff_eq]
        exact fun hc => hg hc.symm
      rw [hfil0, List.append_nil]
      rfl
  by_cases hmem : tg.DashboardGroup ∈ groupKeysOf processed
  · have hlookG : lookupKV acc.2 tg.DashboardGroup =
        some (groupNamesOf processed tg.DashboardGroup) := by
      rw [h2, if_pos hmem]
    have hacc2 : dashGroupStep acc tg =
        (if strExists (groupNamesOf processed tg.DashboardGroup) tg.DashboardName then acc
         else (acc.1, setKV acc.2 tg.DashboardGroup
            (groupNamesOf processed tg.DashboardGroup ++ [tg.DashboardName]))) := by
      unfold dashGroupStep
      rw [hlookG]
      simp [hlookG]
    cases hsn : strExists (groupNamesOf processed tg.DashboardGroup) tg.DashboardName with
    | true =>
      rw [hacc2, if_pos hsn]
      refine ⟨?_, ?_⟩
      · rw [h1, hkeys2, if_pos hmem]
      · intro g
        rw [hkeys2, if_pos hmem, hnames2 g]
        by_cases hg : g = tg.DashboardGroup
        · rw [if_pos hg, hg, if_pos hsn]
          exact h2 _
        · rw [if_neg hg]
          exact h2 g
    | false =>
      rw [hacc2, if_neg (by simp [hsn])]
      refine ⟨?_, ?_⟩
      · show acc.1 = _
        rw [h1, hkeys2, if_pos hmem]
      · intro g
        show lookupKV (setKV acc.2 tg.DashboardGroup
          (groupNamesOf processed tg.DashboardGroup ++ [tg.DashboardName])) g = _
        rw [lookupKV_setKV, hkeys2, if_pos hmem, hnames2 g]
        by_cases hg : g = tg.DashboardGroup
        · rw [if_pos hg.symm, if_pos (hg ▸ hmem), if_pos hg, hg, if_neg (by simp [hsn])]
        · rw [if_neg (fun hc => hg hc.symm), if_neg hg]
          exact h2 g
  · have hlookG : lookupKV acc.2 tg.DashboardGroup = none := by
      rw [h2, if_neg hmem]
    have hnames0 : groupNamesOf processed tg.DashboardGroup = [] :=
      groupNamesOf_of_not_mem _ _ hmem
    have hacc3 : dashGroupStep acc tg =
        (acc.1 ++ [tg.DashboardGroup],
         setKV (setKV acc.2 tg.DashboardGroup []) tg.DashboardGroup
           ([] ++ [tg.DashboardName])) := by
      unfold dashGroupStep
      rw [hlookG]
      simp [lookupKV_setKV, strExists]
    rw [hacc3]
    refine ⟨?_, ?_⟩
    · show acc.1 ++ [tg.DashboardGroup] = _
      rw [h1, hkeys2, if_neg hmem]
    · intro g
      show lookupKV (setKV (setKV acc.2 tg.DashboardGroup []) tg.DashboardGroup
        ([] ++ [tg.DashboardName])) g = _
      rw [lookupKV_setKV, lookupKV_setKV, hkeys2, if_neg hmem, hnames2 g]
      by_cases hg : g = tg.DashboardGroup
      · rw [if_pos hg.symm,
          if_pos (List.mem_append_right _ (hg ▸ List.mem_singleton_self tg.DashboardGroup)),
          if_pos hg, hg, hnames0, if_neg (by simp [strExists])]
      · have hmemiff : (g ∈ groupKeysOf processed ++ [tg.DashboardGroup]) ↔
            g ∈ groupKeysOf processed := by
          simp [List.mem_append, hg]
        rw [if_neg (fun hc => hg hc.symm), if_neg (fun hc => hg hc.symm), if_neg hg]
        simp only [hmemiff]
        exact h2 g

theorem dashGroupFold_inv (l : List NonAlignedTestGroup) :
    ∀ (processed : List NonAlignedTestGroup)
      (acc : List String × List (String × List String)),
      DGInv processed acc → DGInv (processed ++ l) (l.foldl dashGroupStep acc) := by
  induction l with
  | nil =>
    intro processed acc h
    simpa using h
  | cons tg l ih =>
    intro processed acc h
    have hstep := dashGroupStep_inv processed acc tg h
    have hrec := ih (processed ++ [tg]) (dashGroupStep acc tg) hstep
    simpa [List.append_assoc] using hrec

theorem flatten_map_singleton {α β : Type} (f : α → β) (l : List α) :
    (l.map (fun x => [f x])).flatten = l.map f := by
  induction l with
  | nil => rfl
  | cons x l ih => simp [ih]

/-- C7: the dashboard-group aggregation over the non-aligned entries emits
one group per distinct `DashboardGroup` value in first-seen order, whose
member list holds each `DashboardName` observed under that group exactly
once (deduplicated), in first-seen order. -/
theorem generateNonAlignedDashboardGroups_spec (t : TestGridMetaData) (o : Output) :
    (generateNonAlignedDashboardGroups t o).items =
      o.items ++ (groupKeysOf t.nonAligned).map (fun g =>
        OutputItem.dashboardGroup
          { Name := g, RepoNames := groupNamesOf t.nonAligned g }) := by
  have hinv : DGInv t.nonAligned (t.nonAligned.foldl dashGroupStep ([], [])) := by
    have hbase : DGInv [] (([] : List String), ([] : List (String × List String))) :=
      ⟨rfl, fun g => by simp [lookupKV, groupKeysOf, firstSeen]⟩
    have := dashGroupFold_inv t.nonAligned [] ([], []) hbase
    simpa using this
  obtain ⟨hk, hn⟩ := hinv
  unfold generateNonAlignedDashboardGroups
  have hg : EmitsItems
      (fun o group =>
        executeDashboardGroupTemplate group
          ((lookupKV (t.nonAligned.foldl dashGroupStep ([], [])).2 group).getD []) o)
      (fun group =>
        [.dashboardGroup
          { Name := group
            RepoNames :=
              (lookupKV (t.nonAligned.foldl dashGroupStep ([], [])).2 group).getD [] }]) := by
    intro o b
    rfl
  rw [foldl_emits hg]
  show o.items ++ _ = _
  congr 1
  rw [flatten_map_singleton, hk]
  apply List.map_congr_left
  intro g hgmem
  simp [hn g, hgmem]

/-- Embeds `generateNonAlignedTestGroups` from testgrid_config.go. -/
def generateNonAlignedTestGroups (env : Env) (t : TestGridMetaData) (o : Output) : Output :=
  t.nonAligned.foldl
    (fun o tg =>
      executeTestGroupTemplate tg.CIJobName (getGcsLogDir env tg.CIJobName) tg.Extra o) o

/-- The loop body of `generateNonAlignedDashboards`'s collection loop:
first-seen registration of the entry's `DashboardName`, then append of the
entry itself (no deduplication here). -/
def dashNameStep (acc : List String × List (String × List NonAlignedTestGroup))
    (tg : NonAlignedTestGroup) : List String × List (String × List NonAlignedTestGroup) :=
  let acc2 :=
    if (lookupKV acc.2 tg.DashboardName).isSome then acc
    else (acc.1 ++ [tg.DashboardName], setKV acc.2 tg.DashboardName [])
  (acc2.1,
   setKV acc2.2 tg.DashboardName (((lookupKV acc2.2 tg.DashboardName).getD []) ++ [tg]))

/-- Embeds `generateNonAlignedDashboards` from testgrid_config.go: collect
entries by `DashboardName` in first-seen order, then emit one dashboard
header and its tabs (with nil extras) per collected name. -/
def generateNonAlignedDashboards (env : Env) (t : TestGridMetaData) (o : Output) : Output :=
  let acc := t.nonAligned.foldl dashNameStep ([], [])
  acc.1.foldl
    (fun o name =>
      let o := outputConfig ("- name: " ++ name ++ "\n" ++ env.baseIndent ++ "dashboard_tab:") o
      ((lookupKV acc.2 name).getD []).foldl
        (fun o tg =>
          executeDashboardTabTemplate tg.HumanTabName tg.CIJobName tg.BaseOptions [] o) o) o

/-- Embeds `generateDashboardsForReleases` from testgrid_config.go. -/
def generateDashboardsForReleases (env : Env) (t : TestGridMetaData) (o : Output) : Output :=
  t.projNames.foldl
    (fun o projName =>
      if !env.isReleased projName then o
      else
        let repos := (lookupKV t.md projName).getD []
        let o := outputConfig
          ("- name: " ++ projName ++ "\n" ++ env.baseIndent ++ "dashboard_tab:") o
        t.repoNames.foldl
          (fun o repoName =>
            match lookupKV repos repoName with
            | some jobNames =>
              jobNames.foldl
                (fun o jobName =>
                  let extras := setKV (setKV [] "num_failures_to_alert" "3")
                    "alert_options" dashboardAlertOptions
                  executeDashboardTabTemplate (repoName ++ "-" ++ jobName)
                    (getTestGroupName (env.buildProjRepoStr projName repoName) jobName)
                    testgridTabSortByName extras o) o
            | none => o) o) o

/-- Embeds `generateDashboardGroups` from testgrid_config.go. -/
def generateDashboardGroups (env : Env) (t : TestGridMetaData) (o : Output) : Output :=
  let o := outputConfig "dashboard_groups:" o
  t.projNames.foldl
    (fun o projName =>
      if env.isReleased projName then o
      else
        let repos := (lookupKV t.md projName).getD []
        let dashboardRepoNames :=
          t.repoNames.filter (fun repoName => (lookupKV repos repoName).isSome)
        executeDashboardGroupTemplate projName dashboardRepoNames o) o

/-- Modelled from the spec: the generation driver (outside the given
sources) runs the passes against the populated store in the spec's fixed
order — test-group section (aligned grid, then non-aligned entries), the
dashboards section (aligned grid skipping released projects, released
projects, non-aligned entries), then the dashboard-group section (aligned,
non-aligned). -/
def fullGeneration (env : Env) (t : TestGridMetaData) (o : Output) : Output :=
  let o := generateTestGridSection env "test_groups" (generateTestGroup env) false t o
  let o := generateNonAlignedTestGroups env t o
  let o := generateTestGridSection env "dashboards" (generateDashboard env) true t o
  let o := generateDashboardsForReleases env t o
  let o := generateNonAlignedDashboards env t o
  let o := generateDashboardGroups env t o
  generateNonAlignedDashboardGroups t o

/-- Two identically populated stores: equal order lists and non-aligned
entries, and equal map views (the association lists embedding the Go maps
may list their keys in any order). -/
def StoreEquiv (t1 t2 : TestGridMetaData) : Prop :=
  t1.projNames = t2.projNames ∧ t1.repoNames = t2.repoNames ∧
  t1.nonAligned = t2.nonAligned ∧
  ∀ p r, lookupKV ((lookupKV t1.md p).getD []) r =
    lookupKV ((lookupKV t2.md p).getD []) r

theorem foldl_congr_fun {α β : Type} {f g : β → α → β}
    (h : ∀ b a, f b a = g b a) (l : List α) (b : β) :
    l.foldl f b = l.foldl g b := by
  induction l generalizing b with
  | nil => rfl
  | cons a l ih =>
    rw [List.foldl_cons, List.foldl_cons, h, ih]

theorem generateTestGridSection_congr (env : Env) (s : String)
    (gen : String → String → List String → Output → Output) (skip : Bool)
    {t1 t2 : TestGridMetaData} (h : StoreEquiv t1 t2) (o : Output) :
    generateTestGridSection env s gen skip t1 o =
      generateTestGridSection env s gen skip t2 o := by
  obtain ⟨h1, h2, h3, h4⟩ := h
  simp only [generateTestGridSection]
  have hfold : ∀ o0 : Output,
      t1.projNames.foldl
        (fun o projName =>
          if skip && env.isReleased projName then o
          else
            t1.repoNames.foldl
              (fun o repoName =>
                match lookupKV ((lookupKV t1.md projName).getD []) repoName with
                | some jobNames => gen projName repoName jobNames o
                | none => o) o) o0 =
      t2.projNames.foldl
        (fun o projName =>
          if skip && env.isReleased projName then o
          else
            t2.repoNames.foldl
              (fun o repoName =>
                match lookupKV ((lookupKV t2.md projName).getD []) repoName with
                | some jobNames => gen projName repoName jobNames o
                | none => o) o) o0 := by
    intro o0
    rw [← h1]
    apply foldl_congr_fun
    intro b a
    by_cases hskip : skip && env.isReleased a
    · simp only [hskip, if_true]
    · simp only [hskip, if_false, Bool.false_eq_true]
      rw [← h2]
      apply foldl_congr_fun
      intro b2 a2
      rw [h4 a a2]
  rw [hfold]

theorem generateNonAlignedTestGroups_congr (env : Env) {t1 t2 : TestGridMetaData}
    (h : StoreEquiv t1 t2) (o : Output) :
    generateNonAlignedTestGroups env t1 o = generateNonAlignedTestGroups env t2 o := by
  unfold generateNonAlignedTestGroups
  rw [h.2.2.1]

theorem generateNonAlignedDashboards_congr (env : Env) {t1 t2 : TestGridMetaData}
    (h : StoreEquiv t1 t2) (o : Output) :
    generateNonAlignedDashboards env t1 o = generateNonAlignedDashboards env t2 o := by
  unfold generateNonAlignedDashboards
  rw [h.2.2.1]

theorem generateNonAlignedDashboardGroups_congr {t1 t2 : TestGridMetaData}
    (h : StoreEquiv t1 t2) (o : Output) :
    generateNonAlignedDashboardGroups t1 o = generateNonAlignedDashboardGroups t2 o := by
  unfold generateNonAlignedDashboardGroups
  rw [h.2.2.1]

theorem generateDashboardsForReleases_congr (env : Env) {t1 t2 : TestGridMetaData}
    (h : StoreEquiv t1 t2) (o : Output) :
    generateDashboardsForReleases env t1 o = generateDashboardsForReleases env t2 o := by
  obtain ⟨h1, h2, h3, h4⟩ := h
  simp only [generateDashboardsForReleases]
  rw [← h1]
  apply foldl_congr_fun
  intro b a
  by_cases hrel : env.isReleased a
  · simp only [hrel, Bool.not_true, if_false, Bool.false_eq_true]
    rw [← h2]
    apply foldl_congr_fun
    intro b2 a2
    rw [h4 a a2]
  · simp only [Bool.not_eq_true', hrel, Bool.not_false, if_true]

theorem generateDashboardGroups_congr (env : Env) {t1 t2 : TestGridMetaData}
    (h : StoreEquiv t1 t2) (o : Output) :
    generateDashboardGroups env t1 o = generateDashboardGroups env t2 o := by
  obtain ⟨h1, h2, h3, h4⟩ := h
  simp only [generateDashboardGroups]
  rw [← h1]
  apply foldl_congr_fun
  intro b a
  by_cases hrel : env.isReleased a
  · simp only [hrel, if_true]
  · simp only [hrel, if_false, Bool.false_eq_true]
    have hfil : t1.repoNames.filter
        (fun repoName => (lookupKV ((lookupKV t1.md a).getD []) repoName).isSome) =
      t2.repoNames.filter
        (fun repoName => (lookupKV ((lookupKV t2.md a).getD []) repoName).isSome) := by
      rw [← h2]
      apply List.filter_congr
      intro x _
      rw [h4 a x]
    rw [hfil]

/-- C8: generation is deterministic — the full multi-pass generation is a
function of the Grouping Store's contents alone: two identically populated
stores (equal order lists and non-aligned entries, map-equal project/repo
views regardless of the maps' internal representation order) produce
byte-identical output, because every pass walks the explicit order lists
and reads the maps only by key. -/
theorem fullGeneration_deterministic (env : Env) (t1 t2 : TestGridMetaData)
    (o : Output) (h : StoreEquiv t1 t2) :
    fullGeneration env t1 o = fullGeneration env t2 o := by
  simp only [fullGeneration]
  rw [generateTestGridSection_congr env "test_groups" (generateTestGroup env) false h,
    generateNonAlignedTestGroups_congr env h,
    generateTestGridSection_congr env "dashboards" (generateDashboard env) true h,
    generateDashboardsForReleases_congr env h,
    generateNonAlignedDashboards_congr env h,
    generateDashboardGroups_congr env h,
    generateNonAlignedDashboardGroups_congr h]

/-- A concrete store used to witness C8. -/
def storeEx1 : TestGridMetaData :=
  { md := [("p1", [("r1", ["continuous"])]), ("p2", [("r2", ["nightly"])])]
    projNames := ["p1", "p2"]
    repoNames := ["r1", "r2"]
    nonAligned := [] }

/-- The same store as `storeEx1` with the map's association list in the
opposite order. -/
def storeEx2 : TestGridMetaData :=
  { md := [("p2", [("r2", ["nightly"])]), ("p1", [("r1", ["continuous"])])]
    projNames := ["p1", "p2"]
    repoNames := ["r1", "r2"]
    nonAligned := [] }

/-- C8 witness: `fullGeneration_deterministic` applied at two concrete
identically populated stores whose map representations differ. -/
theorem fullGeneration_deterministic_witness :
    fullGeneration envCex storeEx1 { items := [], count := 0 } =
      fullGeneration envCex storeEx2 { items := [], count := 0 } :=
  fullGeneration_deterministic envCex storeEx1 storeEx2 { items := [], count := 0 }
    (by
      refine ⟨rfl, rfl, rfl, ?_⟩
      intro p r
      by_cases h1 : "p1" = p
      · by_cases h2 : "p2" = p
        · exact absurd (h1.trans h2.symm) (by decide)
        · simp [storeEx1, storeEx2, lookupKV_cons, h1, h2]
      · by_cases h2 : "p2" = p
        · simp [storeEx1, storeEx2, lookupKV_cons, h1, h2]
        · simp [storeEx1, storeEx2, lookupKV_cons, h1, h2])
